import Mathlib

/-!
Shallow embedding of the autodun-ev-finder scoring pipeline.

Sources embedded (field-for-field from the Python sources):
  * `src/ml/train.py` — CSV row parsing (`load_training_data`), cap
    computation (`compute_caps`), feature normalisation
    (`normalise_features`), ridge fit (`fit_linear_model`), deterministic
    split (`train_test_split`), metrics
    (`compute_classification_metrics`), and the `main` pipeline dataflow.
  * `src/ml/jobs/serve.py` — the `FEATURES` order, `check_key`, the
    pydantic `StationFeatures` bounds and the `/score` endpoint.
  * `src/ml/models/train_station_score.py` — its `FEATURES` order.

Machine floats are modelled by exact rationals; the seeded numpy
permutation is modelled as an explicit permutation parameter (the code
fixes the seed, so one fixed permutation per `n`); the pickled regressor
loaded by the serving process is modelled as an arbitrary function on the
feature row, since its behaviour is opaque to this repository's code.
-/

namespace Autodun

/-- `clamp01` from `src/ml/train.py` (also `max(0.0, min(1.0, ·))` inline
in `serve.py`): clamp a rational into `[0,1]`. -/
def clamp01 (x : ℚ) : ℚ := max 0 (min 1 x)

/-- `np.clip(x, 0, 1)` on a scalar, as used in `normalise_features`. -/
def clip01 (x : ℚ) : ℚ := max 0 (min 1 x)

/-- Normalisation caps, the `caps` dict produced by `compute_caps` in
`src/ml/train.py`. -/
structure Caps where
  power_kw_max : ℚ
  n_connectors_max : ℚ
  rating_max : ℚ
  deriving DecidableEq, Repr

/-! ### Attribute orders (`FEATURES` lists)

`src/ml/train.py` has no explicit `FEATURES` list; its order is the order
in which `load_training_data` appends the parsed columns (lines 50–59)
and in which `main` writes the `weights` dict. `serve.py` line 9 and
`train_station_score.py` line 15 each declare an explicit list. -/

/-- The attribute order used throughout `src/ml/train.py`
(`load_training_data` lines 50–59). -/
def trainFeatureOrder : List String :=
  ["power_kw", "n_connectors", "has_fast_dc", "rating", "has_geo", "usage_score"]

/-- `FEATURES` from `src/ml/jobs/serve.py` line 9. -/
def serveFEATURES : List String :=
  ["power_kw", "n_connectors", "has_fast_dc", "rating", "usage_score", "has_geo"]

/-- `FEATURES` from `src/ml/models/train_station_score.py` line 15. -/
def modelsFEATURES : List String :=
  ["power_kw", "n_connectors", "has_fast_dc", "rating", "usage_score", "has_geo"]

/-! ### Feature normalisation (`normalise_features`, train.py lines 86–102)

A sample is a vector indexed by `Fin 6` in `trainFeatureOrder`
(0 = power_kw, 1 = n_connectors, 2 = has_fast_dc, 3 = rating,
4 = has_geo, 5 = usage_score). The source mutates columns 0, 1, 3, 5 and
leaves columns 2 and 4 untouched. -/

/-- One row of `normalise_features` from `src/ml/train.py`:
column 0 is `clip(x0 / max(power_cap, 1), 0, 1)`, column 1 is
`clip(x1 / max(conn_cap, 1), 0, 1)`, column 3 is
`clip(x3 / max(rating_cap, 1), 0, 1)`, column 5 is `clip(x5, 0, 1)`;
columns 2 and 4 are copied unchanged. -/
def normaliseSample (caps : Caps) (x : Fin 6 → ℚ) : Fin 6 → ℚ := fun i =>
  if i = 0 then clip01 (x 0 / max caps.power_kw_max 1)
  else if i = 1 then clip01 (x 1 / max caps.n_connectors_max 1)
  else if i = 3 then clip01 (x 3 / max caps.rating_max 1)
  else if i = 5 then clip01 (x 5)
  else x i

/-- `normalise_features` applied to a whole matrix (list of rows). -/
def normalise_features (X : List (Fin 6 → ℚ)) (caps : Caps) : List (Fin 6 → ℚ) :=
  X.map (normaliseSample caps)

/-! ### Cap computation (`compute_caps`, train.py lines 73–83)

`np.percentile(a, 95)` with the default linear interpolation: with the
data sorted ascending and `h = (n-1) * 95/100`, the result is
`a[⌊h⌋] + (h - ⌊h⌋) * (a[⌊h⌋+1] - a[⌊h⌋])`. -/

/-- `np.percentile(l, 95)` (default linear interpolation), in exact
rational arithmetic. Empty input is undefined in numpy (raises); we
return 0 there, a case `compute_caps` never reaches because
`load_training_data` is fatal on zero rows. -/
def percentile95 (l : List ℚ) : ℚ :=
  let s := l.insertionSort (· ≤ ·)
  if s.length = 0 then 0
  else
    let h : ℚ := ((s.length - 1 : ℕ) : ℚ) * 95 / 100
    let lo : ℕ := (⌊h⌋).toNat
    let a := s.getD lo 0
    let b := s.getD (lo + 1) a
    a + (h - (lo : ℚ)) * (b - a)

/-- `compute_caps` from `src/ml/train.py`: 95th percentile of column 0
for `power_kw_max`, 95th percentile of column 1 floored at 1 for
`n_connectors_max`, and the constant 5.0 for `rating_max`. -/
def compute_caps (X : List (Fin 6 → ℚ)) : Caps :=
  { power_kw_max := percentile95 (X.map (fun r => r 0))
    n_connectors_max := max 1 (percentile95 (X.map (fun r => r 1)))
    rating_max := 5 }

/-! ### Serving (`src/ml/jobs/serve.py`) -/

/-- The pydantic `StationFeatures` request body (serve.py lines 16–22).
`n_connectors`, `has_fast_dc`, `usage_score`, `has_geo` are `int`
fields, `power_kw` and `rating` are `float` fields. -/
structure StationFeatures where
  power_kw : ℚ
  n_connectors : ℤ
  has_fast_dc : ℤ
  rating : ℚ
  usage_score : ℤ
  has_geo : ℤ
  deriving DecidableEq, Repr

/-- The pydantic `Field` bounds of `StationFeatures`:
`power_kw ≥ 0`, `n_connectors ≥ 0`, `has_fast_dc ∈ [0,1]`,
`rating ∈ [0,5]`, `usage_score ∈ [0,1]`, `has_geo ∈ [0,1]`. -/
def validPayload (p : StationFeatures) : Bool :=
  (0 ≤ p.power_kw) ∧ (0 ≤ p.n_connectors) ∧
    (0 ≤ p.has_fast_dc ∧ p.has_fast_dc ≤ 1) ∧
    (0 ≤ p.rating ∧ p.rating ≤ 5) ∧
    (0 ≤ p.usage_score ∧ p.usage_score ≤ 1) ∧
    (0 ≤ p.has_geo ∧ p.has_geo ≤ 1)

/-- `check_key` from serve.py lines 11–14, as the predicate "the request
passes". `expected` is `os.getenv("AUTODUN_SCORER_KEY")` (`none` when the
variable is unset). Python truthiness: the check fires only when
`expected` is a non-empty string and the header differs from it. -/
def check_key (expected : Option String) (header : Option String) : Bool :=
  match expected with
  | none => true
  | some e => if e ≠ "" ∧ header ≠ some e then false else true

/-- The row `pd.DataFrame([{k: getattr(payload, k) for k in FEATURES}])`
built in `score` (serve.py line 43): the raw payload values in
`serveFEATURES` order (0 = power_kw, 1 = n_connectors, 2 = has_fast_dc,
3 = rating, 4 = usage_score, 5 = has_geo). No normalisation is applied. -/
def serveRow (p : StationFeatures) : Fin 6 → ℚ :=
  ![p.power_kw, (p.n_connectors : ℚ), (p.has_fast_dc : ℚ),
    p.rating, (p.usage_score : ℚ), (p.has_geo : ℚ)]

/-- The score computed by the `/score` handler (serve.py lines 44–45):
`max(0.0, min(1.0, model.predict(row)[0]))`. `predict` stands for the
pickled regressor loaded from `model.pkl`, opaque to this repository. -/
def serveScore (predict : (Fin 6 → ℚ) → ℚ) (p : StationFeatures) : ℚ :=
  clamp01 (predict (serveRow p))

/-- The `/score` endpoint: pydantic validation (HTTP 422 on a bad body),
then `check_key` (HTTP 401), then the clamped model prediction. -/
def scoreEndpoint (expected header : Option String)
    (predict : (Fin 6 → ℚ) → ℚ) (p : StationFeatures) : Except ℕ ℚ :=
  if ¬ validPayload p then .error 422
  else if ¬ check_key expected header then .error 401
  else .ok (serveScore predict p)

/-! ### Train/test split (`train_test_split`, train.py lines 139–161)

`idx = rng.permutation(n)` with the fixed seed 42 is modelled as an
explicit parameter `perm : List ℕ` (one fixed list per `n`; the seed
makes it deterministic). `int(x)` in Python truncates toward zero. -/

/-- Python `int(x)` on a rational: truncation toward zero. -/
def pyInt (x : ℚ) : ℤ := if 0 ≤ x then ⌊x⌋ else ⌈x⌉

/-- The `split` index of `train_test_split` after the two sequential
clamping `if`s: `split = int(n * (1 - test_ratio))`, then
`if split <= 0: split = 1`, then `if split >= n: split = n - 1`. -/
def splitPoint (n : ℕ) (testRatio : ℚ) : ℤ :=
  let split0 := pyInt ((n : ℚ) * (1 - testRatio))
  let s1 := if split0 ≤ 0 then 1 else split0
  if s1 ≥ (n : ℤ) then (n : ℤ) - 1 else s1

/-- `train_test_split` from `src/ml/train.py`: fails when `n < 2`,
otherwise permutes the indices and slices at `splitPoint`. Rows are
fetched by index from `X` and `y` (`X[train_idx]` etc.). -/
def train_test_split (X : List (Fin 6 → ℚ)) (y : List ℚ) (testRatio : ℚ)
    (perm : List ℕ) :
    Except String
      (List (Fin 6 → ℚ) × List (Fin 6 → ℚ) × List ℚ × List ℚ) :=
  let n := X.length
  if n < 2 then .error "Need at least 2 samples for train/test split"
  else
    let k := (splitPoint n testRatio).toNat
    let trainIdx := perm.take k
    let testIdx := perm.drop k
    .ok (trainIdx.map (fun i => X.getD i (fun _ => 0)),
         testIdx.map (fun i => X.getD i (fun _ => 0)),
         trainIdx.map (fun i => y.getD i 0),
         testIdx.map (fun i => y.getD i 0))

/-! ### Metrics (`compute_classification_metrics`, train.py lines 164–194) -/

/-- Thresholding `(x >= 0.5).astype(int)` as a Boolean. -/
def thresh (x : ℚ) : Bool := decide ((1:ℚ)/2 ≤ x)

/-- Count the pairs whose thresholded (true, predicted) classes are
`(t, p)`; `tp/tn/fp/fn` of `compute_classification_metrics`. -/
def countClass (yTrue yPred : List ℚ) (t p : Bool) : ℕ :=
  ((yTrue.zip yPred).filter
    (fun q => thresh q.1 == t && thresh q.2 == p)).length

/-- `tp`: predicted 1 and true 1. -/
def tpCount (yTrue yPred : List ℚ) : ℕ := countClass yTrue yPred true true
/-- `tn`: predicted 0 and true 0. -/
def tnCount (yTrue yPred : List ℚ) : ℕ := countClass yTrue yPred false false
/-- `fp`: predicted 1 and true 0. -/
def fpCount (yTrue yPred : List ℚ) : ℕ := countClass yTrue yPred false true
/-- `fn`: predicted 0 and true 1. -/
def fnCount (yTrue yPred : List ℚ) : ℕ := countClass yTrue yPred true false

/-- `compute_classification_metrics` from `src/ml/train.py`: returns
`(accuracy, precision, recall)`, each `none` (Python `None`) exactly when
its denominator is zero. -/
def compute_classification_metrics (yTrue yPred : List ℚ) :
    Option ℚ × Option ℚ × Option ℚ :=
  let tp := tpCount yTrue yPred
  let tn := tnCount yTrue yPred
  let fp := fpCount yTrue yPred
  let fn := fnCount yTrue yPred
  let total := tp + tn + fp + fn
  (if total = 0 then none else some ((tp + tn : ℚ) / (total : ℚ)),
   if tp + fp = 0 then none else some ((tp : ℚ) / ((tp + fp : ℕ) : ℚ)),
   if tp + fn = 0 then none else some ((tp : ℚ) / ((tp + fn : ℕ) : ℚ)))

/-! ### CSV row loading (`load_training_data`, train.py lines 33–65)

A raw CSV cell is `Option (Option ℚ)`: `none` — the column is missing
from the row (Python `KeyError`); `some none` — present but non-numeric
(`float(...)` raises `ValueError`); `some (some q)` — parses to `q`. -/

/-- One raw CSV row of `training_data.csv`. -/
structure RawRow where
  power_kw : Option (Option ℚ)
  n_connectors : Option (Option ℚ)
  has_fast_dc : Option (Option ℚ)
  rating : Option (Option ℚ)
  has_geo : Option (Option ℚ)
  usage_score : Option (Option ℚ)
  label : Option (Option ℚ)
  deriving DecidableEq, Repr

/-- Reading a required cell: missing or non-numeric raises, i.e. yields
`none`. -/
def getNum (cell : Option (Option ℚ)) : Option ℚ := cell.bind id

/-- Reading `usage_score` via `row.get("usage_score", 0.0)`: a missing
cell defaults to `0.0`; a present non-numeric cell still raises. -/
def getUsage (cell : Option (Option ℚ)) : Option ℚ :=
  match cell with
  | none => some 0
  | some v => v

/-- The per-row body of `load_training_data`'s loop: `none` when the row
is skipped, otherwise the feature vector (in `trainFeatureOrder`) and
the label. -/
def parseRow (r : RawRow) : Option ((Fin 6 → ℚ) × ℚ) := do
  let p ← getNum r.power_kw
  let c ← getNum r.n_connectors
  let f ← getNum r.has_fast_dc
  let rat ← getNum r.rating
  let g ← getNum r.has_geo
  let u ← getUsage r.usage_score
  let l ← getNum r.label
  pure (![p, c, f, rat, g, u], l)

/-- `load_training_data` on the parsed CSV rows: skips bad rows, fatal
(`SystemExit`) only when no usable row remains. -/
def load_training_data (rows : List RawRow) :
    Except String (List (Fin 6 → ℚ) × List ℚ) :=
  let parsed := rows.filterMap parseRow
  if parsed.isEmpty then .error "No valid rows in training_data.csv"
  else .ok (parsed.map Prod.fst, parsed.map Prod.snd)

/-- The count printed by `main` (line 205): the number of rows loaded. -/
def samplesLoadedCount (rows : List RawRow) : ℕ :=
  (rows.filterMap parseRow).length

/-- The number of rows skipped by `load_training_data`; no line of
`train.py` reports this quantity. -/
def skippedRowCount (rows : List RawRow) : ℕ :=
  rows.length - samplesLoadedCount rows

/-! ### The `main` pipeline up to the artifact's caps (train.py 202–216)

`main` loads the data, computes `caps = compute_caps(X_raw)` on the
whole loaded matrix, normalises, and only then splits; the artifact
persisted at line 220–234 stores exactly that `caps` value. -/

/-- The dataflow of `main` through load → caps → normalise → split:
returns the caps that `main` persists in `model.json` together with the
train/test partitions the fit and the evaluation use. -/
def mainPrepared (rows : List RawRow) (testRatio : ℚ) (perm : List ℕ) :
    Except String
      (Caps × List (Fin 6 → ℚ) × List (Fin 6 → ℚ) × List ℚ × List ℚ) :=
  match load_training_data rows with
  | .error e => .error e
  | .ok (xRaw, y) =>
    let caps := compute_caps xRaw
    let xNorm := normalise_features xRaw caps
    match train_test_split xNorm y testRatio perm with
    | .error e => .error e
    | .ok (xTr, xTe, yTr, yTe) => .ok (caps, xTr, xTe, yTr, yTe)

/-! ### Ridge fit (`fit_linear_model`, train.py lines 110–122) -/

/-- The fixed ridge penalty `lam = 1e-3` of `fit_linear_model`. -/
def lam : ℚ := 1 / 1000

/-- `Xb = np.hstack([X, ones])`: the feature matrix augmented with a
trailing constant-1 column. -/
def augment {m k : ℕ} (X : Matrix (Fin m) (Fin k) ℚ) :
    Matrix (Fin m) (Fin (k + 1)) ℚ :=
  Matrix.of fun i j => if h : (j : ℕ) < k then X i ⟨j, h⟩ else 1

/-- `XtX = Xb.T @ Xb + lam * np.eye(Xb.shape[1])`: the regularised Gram
matrix of the normal equations. -/
def gram {m k : ℕ} (X : Matrix (Fin m) (Fin k) ℚ) :
    Matrix (Fin (k + 1)) (Fin (k + 1)) ℚ :=
  (augment X).transpose * augment X + lam • (1 : Matrix (Fin (k + 1)) (Fin (k + 1)) ℚ)

/-- `Xty = Xb.T @ y`: the right-hand side of the normal equations. -/
def gramRhs {m k : ℕ} (X : Matrix (Fin m) (Fin k) ℚ) (y : Fin m → ℚ) :
    Fin (k + 1) → ℚ :=
  (augment X).transpose.mulVec y

/-- `theta = np.linalg.solve(XtX, Xty)`: the solution of the regularised
normal equations, computed here by Cramer (adjugate) so the definition
stays executable; for an invertible Gram matrix this is the unique
vector `np.linalg.solve` returns. -/
def fitTheta {m k : ℕ} (X : Matrix (Fin m) (Fin k) ℚ) (y : Fin m → ℚ) :
    Fin (k + 1) → ℚ :=
  (1 / (gram X).det) • (gram X).adjugate.mulVec (gramRhs X y)

/-- `fit_linear_model` from `src/ml/train.py`: `weights = theta[:-1]`,
`bias = theta[-1]`. -/
def fit_linear_model {m k : ℕ} (X : Matrix (Fin m) (Fin k) ℚ)
    (y : Fin m → ℚ) : (Fin k → ℚ) × ℚ :=
  (fun i => fitTheta X y i.castSucc, fitTheta X y (Fin.last k))

/-! ### Claim-side (spec-worded) definitions and concrete examples -/

/-- The attribute order the spec asserts to be system-wide:
`(power_kw, n_connectors, has_fast_dc, rating, has_geo, usage_score)`.
Stated from the spec's words, for comparison with the source orders. -/
def specClaimedOrder : List String :=
  ["power_kw", "n_connectors", "has_fast_dc", "rating", "has_geo", "usage_score"]

/-- The record as the spec's `FeatureNormalizer` indexes it: the raw
payload attributes in `trainFeatureOrder` (the order `normaliseSample`
was written for). Used to state the spec's claimed serving formula. -/
def recordVecTrain (p : StationFeatures) : Fin 6 → ℚ :=
  ![p.power_kw, (p.n_connectors : ℚ), (p.has_fast_dc : ℚ),
    p.rating, (p.has_geo : ℚ), (p.usage_score : ℚ)]

/-- A piecewise-constant regressor (the shape of a decision-tree /
random-forest prediction, which is what `model.pkl` holds): 1/5 when the
power column is at most 3/20, else 3/5. -/
def cexPredict : (Fin 6 → ℚ) → ℚ :=
  fun r => if r 0 ≤ 3 / 20 then 1 / 5 else 3 / 5

/-- A valid scoring payload whose only nonzero attribute is `power_kw`. -/
def cexPayload (q : ℚ) : StationFeatures :=
  { power_kw := q, n_connectors := 0, has_fast_dc := 0, rating := 0
    usage_score := 0, has_geo := 0 }

/-- A training sample whose only nonzero attribute is `power_kw`. -/
def cexRow (q : ℚ) : Fin 6 → ℚ := ![q, 0, 0, 0, 0, 0]

/-- A fully numeric CSV row with the given `power_kw`, zeros elsewhere
and label 1. -/
def goodRaw (q : ℚ) : RawRow :=
  { power_kw := some (some q), n_connectors := some (some 0)
    has_fast_dc := some (some 0), rating := some (some 0)
    has_geo := some (some 0), usage_score := some (some 0)
    label := some (some 1) }

/-- A CSV row whose `power_kw` column is absent (skipped by the
loader). -/
def badRaw : RawRow :=
  { power_kw := none, n_connectors := some (some 0)
    has_fast_dc := some (some 0), rating := some (some 0)
    has_geo := some (some 0), usage_score := some (some 0)
    label := some (some 1) }

/-- The claim-side description of a row `load_training_data` skips: some
column of the row is missing (other than `usage_score`, whose absence is
defaulted) or is present but non-numeric. -/
def specBadRow (r : RawRow) : Prop :=
  r.power_kw = none ∨ r.n_connectors = none ∨ r.has_fast_dc = none ∨
    r.rating = none ∨ r.has_geo = none ∨ r.label = none ∨
    r.power_kw = some none ∨ r.n_connectors = some none ∨
    r.has_fast_dc = some none ∨ r.rating = some none ∨
    r.has_geo = some none ∨ r.usage_score = some none ∨
    r.label = some none

/-- A concrete 1×1 design matrix (one sample, one feature, value 1),
used to instantiate the ridge-fit theorem. -/
def cexMat1 : Matrix (Fin 1) (Fin 1) ℚ := Matrix.of fun _ _ => 1

/-- A fully numeric CSV row whose `usage_score` column is absent. -/
def usageMissingRaw : RawRow :=
  { power_kw := some (some 1), n_connectors := some (some 2)
    has_fast_dc := some (some 1), rating := some (some 4)
    has_geo := some (some 1), usage_score := none
    label := some (some 1) }

/-! ## Helper lemmas -/

theorem clamp01_nonneg (x : ℚ) : 0 ≤ clamp01 x := le_max_left _ _

theorem clamp01_le_one (x : ℚ) : clamp01 x ≤ 1 :=
  max_le (by norm_num) (min_le_left _ _)

theorem clip01_nonneg (x : ℚ) : 0 ≤ clip01 x := le_max_left _ _

theorem clip01_le_one (x : ℚ) : clip01 x ≤ 1 :=
  max_le (by norm_num) (min_le_left _ _)

theorem clip01_eq_self {x : ℚ} (h0 : 0 ≤ x) (h1 : x ≤ 1) : clip01 x = x := by
  unfold clip01
  rw [min_eq_right h1, max_eq_right h0]

theorem clamp01_eq_self {x : ℚ} (h0 : 0 ≤ x) (h1 : x ≤ 1) : clamp01 x = x := by
  unfold clamp01
  rw [min_eq_right h1, max_eq_right h0]

theorem eq_of_clamp01_eq {x c : ℚ} (h : clamp01 x = c) (hc0 : 0 < c)
    (hc1 : c < 1) : x = c := by
  unfold clamp01 at h
  rcases le_or_lt x 0 with hx | hx
  · rw [min_eq_right (hx.trans (by norm_num)), max_eq_left hx] at h
    exact absurd h.symm hc0.ne'
  · rcases le_or_lt 1 x with hx1 | hx1
    · rw [min_eq_left hx1, max_eq_right (by norm_num : (0:ℚ) ≤ 1)] at h
      exact absurd h hc1.ne'
    · rw [min_eq_right hx1.le, max_eq_right hx.le] at h
      exact h

theorem clip01_zero : clip01 0 = 0 := by
  rw [clip01, min_eq_right zero_le_one, max_self]

/-- Evaluation of the spec's claimed serving formula's dot product on a
payload whose only nonzero attribute is `power_kw`. -/
theorem dot_normalise_cexPayload (w : Fin 6 → ℚ) (caps : Caps) (q : ℚ) :
    Matrix.dotProduct w (normaliseSample caps (recordVecTrain (cexPayload q)))
      = w 0 * clip01 (q / max caps.power_kw_max 1) := by
  have hvec : normaliseSample caps (recordVecTrain (cexPayload q))
      = ![clip01 (q / max caps.power_kw_max 1), 0, 0, 0, 0, 0] := by
    funext i
    fin_cases i
    · rfl
    · show clip01 (((0:ℤ):ℚ) / max caps.n_connectors_max 1) = 0
      rw [Int.cast_zero, zero_div, clip01_zero]
    · show ((0:ℤ):ℚ) = 0
      exact Int.cast_zero
    · show clip01 ((0:ℚ) / max caps.rating_max 1) = 0
      rw [zero_div, clip01_zero]
    · show ((0:ℤ):ℚ) = 0
      exact Int.cast_zero
    · show clip01 ((0:ℤ):ℚ) = 0
      rw [Int.cast_zero, clip01_zero]
  rw [hvec]
  unfold Matrix.dotProduct
  rw [Fin.sum_univ_six]
  show w 0 * clip01 (q / max caps.power_kw_max 1) + w 1 * 0 + w 2 * 0
      + w 3 * 0 + w 4 * 0 + w 5 * 0 = _
  ring

/-! ## Claim C1 -/

/-- Claim C1, as stated, is false of `serve.py`: the `/score` handler
feeds the raw (unnormalised) feature row to the opaque pickled model and
clamps its prediction; for the piecewise-constant regressor `cexPredict`
(the shape of a decision-tree prediction) no weight vector, bias and cap
set make the served scores equal
`clamp(dot(weights, normalised_features) + bias, 0, 1)`: the payloads
with `power_kw` 1/10, 2/10, 3/10 yield scores 1/5, 3/5, 3/5, which no
clamped affine function of the normalised features matches. -/
theorem C1_counterexample :
    ¬ ∃ (w : Fin 6 → ℚ) (b : ℚ) (caps : Caps),
        ∀ p : StationFeatures, validPayload p = true →
          serveScore cexPredict p
            = clamp01 (Matrix.dotProduct w
                (normaliseSample caps (recordVecTrain p)) + b) := by
  rintro ⟨w, b, caps, h⟩
  have e1 := h (cexPayload (1/10)) (by norm_num [validPayload, cexPayload])
  have e2 := h (cexPayload (2/10)) (by norm_num [validPayload, cexPayload])
  have e3 := h (cexPayload (3/10)) (by norm_num [validPayload, cexPayload])
  rw [dot_normalise_cexPayload] at e1 e2 e3
  set M := max caps.power_kw_max 1 with hM
  have hM1 : (1:ℚ) ≤ M := le_max_right _ _
  have hM0 : (0:ℚ) < M := lt_of_lt_of_le one_pos hM1
  have hclip : ∀ q : ℚ, 0 ≤ q → q ≤ 1 → clip01 (q / M) = q / M := by
    intro q hq0 hq1
    exact clip01_eq_self (div_nonneg hq0 hM0.le)
      (le_trans (div_le_self hq0 hM1) hq1)
  rw [hclip (1/10) (by norm_num) (by norm_num)] at e1
  rw [hclip (2/10) (by norm_num) (by norm_num)] at e2
  rw [hclip (3/10) (by norm_num) (by norm_num)] at e3
  have s1 : serveScore cexPredict (cexPayload (1/10)) = 1/5 := by
    show clamp01 (cexPredict (serveRow (cexPayload (1/10)))) = 1/5
    rw [show cexPredict (serveRow (cexPayload (1/10))) = 1/5 by
      norm_num [cexPredict, serveRow, cexPayload]]
    exact clamp01_eq_self (by norm_num) (by norm_num)
  have s2 : serveScore cexPredict (cexPayload (2/10)) = 3/5 := by
    show clamp01 (cexPredict (serveRow (cexPayload (2/10)))) = 3/5
    rw [show cexPredict (serveRow (cexPayload (2/10))) = 3/5 by
      norm_num [cexPredict, serveRow, cexPayload]]
    exact clamp01_eq_self (by norm_num) (by norm_num)
  have s3 : serveScore cexPredict (cexPayload (3/10)) = 3/5 := by
    show clamp01 (cexPredict (serveRow (cexPayload (3/10)))) = 3/5
    rw [show cexPredict (serveRow (cexPayload (3/10))) = 3/5 by
      norm_num [cexPredict, serveRow, cexPayload]]
    exact clamp01_eq_self (by norm_num) (by norm_num)
  rw [s1] at e1; rw [s2] at e2; rw [s3] at e3
  have f1 : w 0 * (1/10 / M) + b = 1/5 :=
    eq_of_clamp01_eq e1.symm (by norm_num) (by norm_num)
  have f2 : w 0 * (2/10 / M) + b = 3/5 :=
    eq_of_clamp01_eq e2.symm (by norm_num) (by norm_num)
  have f3 : w 0 * (3/10 / M) + b = 3/5 :=
    eq_of_clamp01_eq e3.symm (by norm_num) (by norm_num)
  have g2 : w 0 * (2/10 / M) = 2 * (w 0 * (1/10 / M)) := by ring
  have g3 : w 0 * (3/10 / M) = 3 * (w 0 * (1/10 / M)) := by ring
  rw [g2] at f2; rw [g3] at f3
  linarith

/-- Claim C1 amended: for every valid feature record that passes the key
check, the `/score` handler returns `clamp(predict(raw_row), 0, 1)` where
`predict` is the opaque loaded model applied to the raw, unnormalised
feature row; in particular the returned score always lies in `[0,1]`. -/
theorem C1_serve_clamps_opaque_prediction (expected header : Option String)
    (predict : (Fin 6 → ℚ) → ℚ) (p : StationFeatures)
    (hv : validPayload p = true) (hk : check_key expected header = true) :
    scoreEndpoint expected header predict p
        = .ok (clamp01 (predict (serveRow p)))
      ∧ 0 ≤ serveScore predict p ∧ serveScore predict p ≤ 1 := by
  refine ⟨?_, clamp01_nonneg _, clamp01_le_one _⟩
  simp [scoreEndpoint, hv, hk, serveScore]

/-- Witness for `C1_serve_clamps_opaque_prediction` at a concrete
payload, open-access configuration and the concrete regressor. -/
theorem C1_serve_clamps_opaque_prediction_witness :
    validPayload (cexPayload 1) = true
      ∧ check_key none none = true
      ∧ (scoreEndpoint none none cexPredict (cexPayload 1)
            = .ok (clamp01 (cexPredict (serveRow (cexPayload 1))))
          ∧ 0 ≤ serveScore cexPredict (cexPayload 1)
          ∧ serveScore cexPredict (cexPayload 1) ≤ 1) :=
  ⟨by decide, by decide,
    C1_serve_clamps_opaque_prediction none none cexPredict
      (cexPayload 1) (by decide) (by decide)⟩

/-! ## Claim C3 -/

/-- Claim C3, as stated, is false: the components do not all index
attributes in the order
`(power_kw, n_connectors, has_fast_dc, rating, has_geo, usage_score)`.
`train.py` does, but `serve.py`'s and `train_station_score.py`'s
`FEATURES` lists put `usage_score` at position 4 and `has_geo` at
position 5. -/
theorem C3_counterexample :
    trainFeatureOrder = specClaimedOrder
      ∧ serveFEATURES ≠ specClaimedOrder
      ∧ serveFEATURES.getD 4 "" = "usage_score"
      ∧ specClaimedOrder.getD 4 "" = "has_geo" := by
  refine ⟨rfl, ?_, rfl, rfl⟩
  decide

/-- Claim C3 amended: `serve.py` and `train_station_score.py` share one
fixed order (`..., rating, usage_score, has_geo`), and `train.py` uses
another (`..., rating, has_geo, usage_score`); the first four positions
agree across all components and the last two are swapped between the
two pipelines, so position `i` means the same attribute within each
pipeline but not across them. -/
theorem C3_feature_orders :
    serveFEATURES = modelsFEATURES
      ∧ trainFeatureOrder ≠ serveFEATURES
      ∧ serveFEATURES.getD 0 "" = trainFeatureOrder.getD 0 ""
      ∧ serveFEATURES.getD 1 "" = trainFeatureOrder.getD 1 ""
      ∧ serveFEATURES.getD 2 "" = trainFeatureOrder.getD 2 ""
      ∧ serveFEATURES.getD 3 "" = trainFeatureOrder.getD 3 ""
      ∧ serveFEATURES.getD 4 "" = trainFeatureOrder.getD 5 ""
      ∧ serveFEATURES.getD 5 "" = trainFeatureOrder.getD 4 ""
      ∧ trainFeatureOrder.Perm serveFEATURES := by
  refine ⟨rfl, by decide, rfl, rfl, rfl, rfl, rfl, rfl, ?_⟩
  decide

/-! ## Claim C5 -/

/-- Claim C5, as stated, is false: `has_fast_dc` (column 2) passes
through `normalise_features` unchanged, so the extreme raw value 7 stays
7, outside `[0,1]`. -/
theorem C5_counterexample :
    normaliseSample ⟨100, 10, 5⟩ (![0, 0, 7, 0, 0, 0]) 2 = 7
      ∧ ¬ ((7:ℚ) ≤ 1) := by
  constructor
  · decide
  · norm_num

/-- Claim C5 amended: the rescaled-and-clipped columns (`power_kw`,
`n_connectors`, `rating`, `usage_score`) always land in `[0,1]` however
extreme the raw value, while `has_fast_dc` and `has_geo` pass through
unchanged; hence the whole output vector lies in `[0,1]^6` exactly when
those two pass-through inputs already lie in `[0,1]`. -/
theorem C5_normalise_range (caps : Caps) (x : Fin 6 → ℚ)
    (h2 : 0 ≤ x 2 ∧ x 2 ≤ 1) (h4 : 0 ≤ x 4 ∧ x 4 ≤ 1) :
    (∀ i, 0 ≤ normaliseSample caps x i ∧ normaliseSample caps x i ≤ 1)
      ∧ normaliseSample caps x 2 = x 2
      ∧ normaliseSample caps x 4 = x 4
      ∧ (0 ≤ normaliseSample caps x 0 ∧ normaliseSample caps x 0 ≤ 1)
      ∧ (0 ≤ normaliseSample caps x 1 ∧ normaliseSample caps x 1 ≤ 1)
      ∧ (0 ≤ normaliseSample caps x 3 ∧ normaliseSample caps x 3 ≤ 1)
      ∧ (0 ≤ normaliseSample caps x 5 ∧ normaliseSample caps x 5 ≤ 1) := by
  have hpass2 : normaliseSample caps x 2 = x 2 := by
    simp [normaliseSample]
  have hpass4 : normaliseSample caps x 4 = x 4 := by
    simp [normaliseSample]
  have hclip : ∀ i, i ≠ 2 → i ≠ 4 →
      0 ≤ normaliseSample caps x i ∧ normaliseSample caps x i ≤ 1 := by
    intro i hi2 hi4
    fin_cases i
    · exact ⟨clip01_nonneg _, clip01_le_one _⟩
    · exact ⟨clip01_nonneg _, clip01_le_one _⟩
    · exact absurd rfl hi2
    · exact ⟨clip01_nonneg _, clip01_le_one _⟩
    · exact absurd rfl hi4
    · exact ⟨clip01_nonneg _, clip01_le_one _⟩
  refine ⟨?_, hpass2, hpass4, hclip 0 (by decide) (by decide),
    hclip 1 (by decide) (by decide), hclip 3 (by decide) (by decide),
    hclip 5 (by decide) (by decide)⟩
  intro i
  by_cases hi2 : i = 2
  · subst hi2; rw [hpass2]; exact h2
  · by_cases hi4 : i = 4
    · subst hi4; rw [hpass4]; exact h4
    · exact hclip i hi2 hi4

/-- Witness for `C5_normalise_range` at an extreme but
binary-respecting raw sample. -/
theorem C5_normalise_range_witness :
    (0 ≤ (![350, 40, 1, 9, 1, 3] : Fin 6 → ℚ) 2
        ∧ (![350, 40, 1, 9, 1, 3] : Fin 6 → ℚ) 2 ≤ 1)
      ∧ ((∀ i, 0 ≤ normaliseSample ⟨100, 10, 5⟩ (![350, 40, 1, 9, 1, 3]) i
            ∧ normaliseSample ⟨100, 10, 5⟩ (![350, 40, 1, 9, 1, 3]) i ≤ 1)
          ∧ normaliseSample ⟨100, 10, 5⟩ (![350, 40, 1, 9, 1, 3]) 2
              = (![350, 40, 1, 9, 1, 3] : Fin 6 → ℚ) 2
          ∧ normaliseSample ⟨100, 10, 5⟩ (![350, 40, 1, 9, 1, 3]) 4
              = (![350, 40, 1, 9, 1, 3] : Fin 6 → ℚ) 4
          ∧ (0 ≤ normaliseSample ⟨100, 10, 5⟩ (![350, 40, 1, 9, 1, 3]) 0
              ∧ normaliseSample ⟨100, 10, 5⟩ (![350, 40, 1, 9, 1, 3]) 0 ≤ 1)
          ∧ (0 ≤ normaliseSample ⟨100, 10, 5⟩ (![350, 40, 1, 9, 1, 3]) 1
              ∧ normaliseSample ⟨100, 10, 5⟩ (![350, 40, 1, 9, 1, 3]) 1 ≤ 1)
          ∧ (0 ≤ normaliseSample ⟨100, 10, 5⟩ (![350, 40, 1, 9, 1, 3]) 3
              ∧ normaliseSample ⟨100, 10, 5⟩ (![350, 40, 1, 9, 1, 3]) 3 ≤ 1)
          ∧ (0 ≤ normaliseSample ⟨100, 10, 5⟩ (![350, 40, 1, 9, 1, 3]) 5
              ∧ normaliseSample ⟨100, 10, 5⟩ (![350, 40, 1, 9, 1, 3]) 5 ≤ 1)) :=
  ⟨by decide,
    C5_normalise_range ⟨100, 10, 5⟩ (![350, 40, 1, 9, 1, 3])
      (by decide) (by decide)⟩

/-! ## Claim C9 -/

/-- Claim C9, as stated, is false at one edge: when the environment
variable holds the empty string, a secret is set in the service
environment yet the check is disabled (Python truthiness), so a request
with no token is still answered with a score. -/
theorem C9_counterexample :
    check_key (some "") none = true
      ∧ scoreEndpoint (some "") none cexPredict (cexPayload 1)
          = .ok (3/5) := by
  refine ⟨by decide, ?_⟩
  have hv : validPayload (cexPayload 1) = true := by decide
  have s1 : serveScore cexPredict (cexPayload 1) = 3/5 := by
    show clamp01 (cexPredict (serveRow (cexPayload 1))) = 3/5
    rw [show cexPredict (serveRow (cexPayload 1)) = 3/5 by
      norm_num [cexPredict, serveRow, cexPayload]]
    exact clamp01_eq_self (by norm_num) (by norm_num)
  simp [scoreEndpoint, hv, s1, check_key]

/-- Claim C9 amended: if a non-empty shared secret is configured, a
valid request is answered with a score exactly when it presents the
matching token, and a mismatching or absent token yields the
unauthorized (401) response with no score; if the variable is unset, or
set to the empty string, every request passes the check. -/
theorem C9_shared_secret (e : String) (he : e ≠ "")
    (header : Option String) (predict : (Fin 6 → ℚ) → ℚ)
    (p : StationFeatures) (hv : validPayload p = true) :
    (check_key (some e) header = true ↔ header = some e)
      ∧ (header = some e →
          scoreEndpoint (some e) header predict p
            = .ok (serveScore predict p))
      ∧ (header ≠ some e →
          scoreEndpoint (some e) header predict p = .error 401)
      ∧ check_key none header = true
      ∧ check_key (some "") header = true := by
  have hck : check_key (some e) header = true ↔ header = some e := by
    simp [check_key, he]
  refine ⟨hck, ?_, ?_, rfl, by simp [check_key]⟩
  · intro hh
    simp [scoreEndpoint, hv, hck.mpr hh, serveScore]
  · intro hh
    have : check_key (some e) header = false := by
      rcases Bool.eq_false_or_eq_true (check_key (some e) header) with h | h
      · exact absurd (hck.mp h) hh
      · exact h
    simp [scoreEndpoint, hv, this]

/-- Witness for `C9_shared_secret` with secret `"k"`, a matching header
and a concrete payload. -/
theorem C9_shared_secret_witness :
    ("k" : String) ≠ ""
      ∧ validPayload (cexPayload 1) = true
      ∧ ((check_key (some "k") (some "k") = true ↔ some "k" = some "k")
          ∧ (some "k" = some "k" →
              scoreEndpoint (some "k") (some "k") cexPredict (cexPayload 1)
                = .ok (serveScore cexPredict (cexPayload 1)))
          ∧ (some "k" ≠ some "k" →
              scoreEndpoint (some "k") (some "k") cexPredict (cexPayload 1)
                = .error 401)
          ∧ check_key none (some "k") = true
          ∧ check_key (some "") (some "k") = true) :=
  ⟨by decide, by decide,
    C9_shared_secret "k" (by decide) (some "k") cexPredict
      (cexPayload 1) (by decide)⟩

/-! ## Claim C2 -/

theorem percentile95_single (x : ℚ) : percentile95 [x] = x := by
  show (if ([x] : List ℚ).length = 0 then (0:ℚ) else _) = x
  norm_num [List.getD]

theorem percentile95_pair : percentile95 [0, 100] = 95 := by
  have hs : List.insertionSort (· ≤ ·) [(0:ℚ), 100] = [0, 100] := by
    norm_num [List.insertionSort, List.orderedInsert]
  unfold percentile95
  rw [hs]
  norm_num [List.getD]

theorem percentile95_zero_pair : percentile95 [0, 0] = 0 := by
  have hs : List.insertionSort (· ≤ ·) [(0:ℚ), 0] = [0, 0] := by
    norm_num [List.insertionSort, List.orderedInsert]
  unfold percentile95
  rw [hs]
  norm_num [List.getD]

theorem compute_caps_cex2 :
    compute_caps [cexRow 0, cexRow 100] = ⟨95, 1, 5⟩ := by
  have h0 : ([cexRow 0, cexRow 100].map (fun r => r 0)) = [0, 100] := rfl
  have h1 : ([cexRow 0, cexRow 100].map (fun r => r 1)) = [0, 0] := rfl
  unfold compute_caps
  rw [h0, h1, percentile95_pair, percentile95_zero_pair]
  norm_num

theorem compute_caps_single (q : ℚ) :
    compute_caps [cexRow q] = ⟨q, 1, 5⟩ := by
  have h0 : ([cexRow q].map (fun r => r 0)) = [q] := rfl
  have h1 : ([cexRow q].map (fun r => r 1)) = [0] := rfl
  unfold compute_caps
  rw [h0, h1, percentile95_single, percentile95_single]
  norm_num

theorem map_getD_range {α : Type} (l : List α) (d : α) :
    (List.range l.length).map (fun i => l.getD i d) = l := by
  apply List.ext_getElem
  · simp
  · intro i h1 h2
    simp [List.getD_eq_getElem?_getD, List.getElem?_eq_getElem h2]

/-- Unfolding `mainPrepared` once the load step has succeeded. -/
theorem mainPrepared_ok_load (rows : List RawRow) (r : ℚ) (perm : List ℕ)
    (xs : List (Fin 6 → ℚ)) (ys : List ℚ)
    (h : load_training_data rows = .ok (xs, ys)) :
    mainPrepared rows r perm
      = (match train_test_split (normalise_features xs (compute_caps xs))
            ys r perm with
        | .error e => .error e
        | .ok (a, b, c, d) => .ok (compute_caps xs, a, b, c, d)) := by
  unfold mainPrepared
  rw [h]

/-- Unfolding `train_test_split` when there are at least two samples. -/
theorem train_test_split_ok (X : List (Fin 6 → ℚ)) (y : List ℚ) (r : ℚ)
    (perm : List ℕ) (h : ¬ X.length < 2) :
    train_test_split X y r perm
      = .ok ((perm.take ((splitPoint X.length r).toNat)).map
              (fun i => X.getD i (fun _ => 0)),
             (perm.drop ((splitPoint X.length r).toNat)).map
              (fun i => X.getD i (fun _ => 0)),
             (perm.take ((splitPoint X.length r).toNat)).map
              (fun i => y.getD i 0),
             (perm.drop ((splitPoint X.length r).toNat)).map
              (fun i => y.getD i 0)) := by
  simp only [train_test_split]
  rw [if_neg h]

/-- Claim C2, as stated, is false: `main` computes the caps from the
whole loaded matrix before splitting. On the two-sample data set with
`power_kw` 0 and 100, the persisted caps have `power_kw_max = 95` (the
95th percentile of both samples) under either possible permutation,
while the caps of either one-sample training subset would be 0 or 100 —
so the persisted caps are not computed solely from the training
subset. -/
theorem C2_counterexample :
    ((mainPrepared [goodRaw 0, goodRaw 100] (2/5) [0, 1]).toOption.map
        Prod.fst = some ⟨95, 1, 5⟩)
      ∧ ((mainPrepared [goodRaw 0, goodRaw 100] (2/5) [1, 0]).toOption.map
          Prod.fst = some ⟨95, 1, 5⟩)
      ∧ compute_caps [cexRow 0] ≠ ⟨95, 1, 5⟩
      ∧ compute_caps [cexRow 100] ≠ ⟨95, 1, 5⟩ := by
  have hload : load_training_data [goodRaw 0, goodRaw 100]
      = .ok ([cexRow 0, cexRow 100], [1, 1]) := rfl
  have hmain : ∀ perm : List ℕ,
      (mainPrepared [goodRaw 0, goodRaw 100] (2/5) perm).toOption.map
        Prod.fst = some ⟨95, 1, 5⟩ := by
    intro perm
    have hnot : ¬ (normalise_features [cexRow 0, cexRow 100]
        (⟨95, 1, 5⟩ : Caps)).length < 2 := by
      simp [normalise_features]
    rw [mainPrepared_ok_load _ _ _ _ _ hload, compute_caps_cex2,
      train_test_split_ok _ _ _ _ hnot]
    rfl
  refine ⟨hmain [0, 1], hmain [1, 0], ?_, ?_⟩
  · rw [compute_caps_single]
    decide
  · rw [compute_caps_single]
    decide

/-- Claim C2 amended: for every training run, `main` computes the caps
exactly once, from **all** loaded samples — before the train/test split,
so test-subset samples do influence them — and that value is what is
persisted into the artifact; the train and test partitions together are
a permutation of the normalised loaded samples. -/
theorem C2_caps_from_all_loaded (rows : List RawRow) (r : ℚ)
    (perm : List ℕ) (xs : List (Fin 6 → ℚ)) (ys : List ℚ)
    (hload : load_training_data rows = .ok (xs, ys))
    (h2 : 2 ≤ xs.length) (hperm : perm.Perm (List.range xs.length)) :
    ∃ tr te ytr yte,
      mainPrepared rows r perm = .ok (compute_caps xs, tr, te, ytr, yte)
        ∧ (tr ++ te).Perm
            (normalise_features xs (compute_caps xs)) := by
  set xn := normalise_features xs (compute_caps xs) with hxn
  have hlen : xn.length = xs.length := by
    simp [hxn, normalise_features]
  have hnot : ¬ xn.length < 2 := by omega
  set k := (splitPoint xn.length r).toNat with hk
  have hsplit : train_test_split xn ys r perm
      = .ok ((perm.take k).map (fun i => xn.getD i (fun _ => 0)),
             (perm.drop k).map (fun i => xn.getD i (fun _ => 0)),
             (perm.take k).map (fun i => ys.getD i 0),
             (perm.drop k).map (fun i => ys.getD i 0)) := by
    rw [train_test_split_ok _ _ _ _ hnot]
  refine ⟨(perm.take k).map (fun i => xn.getD i (fun _ => 0)),
      (perm.drop k).map (fun i => xn.getD i (fun _ => 0)),
      (perm.take k).map (fun i => ys.getD i 0),
      (perm.drop k).map (fun i => ys.getD i 0), ?_, ?_⟩
  · rw [mainPrepared_ok_load _ _ _ _ _ hload, ← hxn, hsplit]
  · have happ : (perm.take k).map (fun i => xn.getD i (fun _ => 0))
        ++ (perm.drop k).map (fun i => xn.getD i (fun _ => 0))
        = perm.map (fun i => xn.getD i (fun _ => 0)) := by
      rw [← List.map_append, List.take_append_drop]
    rw [happ]
    have hpermmap := hperm.map (fun i => xn.getD i (fun _ => 0))
    have hrange : (List.range xs.length).map (fun i => xn.getD i (fun _ => 0))
        = xn := by
      rw [← hlen]
      exact map_getD_range xn (fun _ => 0)
    rw [hrange] at hpermmap
    exact hpermmap

/-- Witness for `C2_caps_from_all_loaded` on the concrete two-row data
set and the identity permutation. -/
theorem C2_caps_from_all_loaded_witness :
    load_training_data [goodRaw 0, goodRaw 100]
        = .ok ([cexRow 0, cexRow 100], [1, 1])
      ∧ 2 ≤ ([cexRow 0, cexRow 100] : List (Fin 6 → ℚ)).length
      ∧ ([0, 1] : List ℕ).Perm
          (List.range ([cexRow 0, cexRow 100] : List (Fin 6 → ℚ)).length)
      ∧ (∃ tr te ytr yte,
          mainPrepared [goodRaw 0, goodRaw 100] (2/5) [0, 1]
              = .ok (compute_caps [cexRow 0, cexRow 100], tr, te, ytr, yte)
            ∧ (tr ++ te).Perm
                (normalise_features [cexRow 0, cexRow 100]
                  (compute_caps [cexRow 0, cexRow 100]))) :=
  ⟨rfl, by decide, by decide,
    C2_caps_from_all_loaded [goodRaw 0, goodRaw 100] (2/5) [0, 1]
      [cexRow 0, cexRow 100] [1, 1] rfl (by decide) (by decide)⟩

/-! ## Claim C4 -/

/-- Claim C4, as stated, is false: at `n = 3`, `f = 2/5` (the default
test ratio) the code takes `split = int(3 * 0.6) = 1`, so the test
partition has 2 elements, while `clamp(round(3 * 2/5), 1, 2) = 1`. -/
theorem C4_counterexample :
    ((train_test_split [cexRow 0, cexRow 1, cexRow 2] [0, 0, 0] (2/5)
        [0, 1, 2]).toOption.map (fun t => t.2.1.length)) = some 2
      ∧ max 1 (min ((3:ℤ) - 1) (round ((3:ℚ) * (2/5)))) = 1
      ∧ (2:ℕ) ≠ 1 := by
  have hsp : splitPoint 3 (2/5) = 1 := by
    norm_num [splitPoint, pyInt]
  refine ⟨?_, ?_, by norm_num⟩
  · rw [train_test_split_ok _ _ _ _ (by norm_num)]
    rw [show ([cexRow 0, cexRow 1, cexRow 2] : List (Fin 6 → ℚ)).length = 3
        from rfl, hsp]
    rfl
  · rw [show round ((3:ℚ) * (2/5)) = 1 by
      rw [show (3:ℚ) * (2/5) = 6/5 by norm_num, round_eq]
      norm_num]
    norm_num

/-- Claim C4 amended: for `n ≥ 2` and a test fraction `f ∈ [0,1]`, the
test partition has size `clamp(⌈n·f⌉, 1, n-1)` — the code floors
`n·(1-f)` and takes the complement, which is the ceiling, not the
rounding, of `n·f` — so both partitions are non-empty; for `n < 2`
splitting fails (`SystemExit`, the spec's `InsufficientDataError`). -/
theorem C4_split_sizes (X : List (Fin 6 → ℚ)) (y : List ℚ) (r : ℚ)
    (perm : List ℕ) (hperm : perm.length = X.length)
    (hr0 : 0 ≤ r) (hr1 : r ≤ 1) :
    (X.length < 2 →
        train_test_split X y r perm
          = .error "Need at least 2 samples for train/test split")
      ∧ (2 ≤ X.length →
          ∃ tr te ytr yte,
            train_test_split X y r perm = .ok (tr, te, ytr, yte)
              ∧ (te.length : ℤ)
                  = max 1 (min ((X.length : ℤ) - 1) ⌈(X.length : ℚ) * r⌉)
              ∧ tr.length + te.length = X.length
              ∧ 1 ≤ tr.length ∧ 1 ≤ te.length) := by
  constructor
  · intro hlt
    simp only [train_test_split]
    rw [if_pos hlt]
  · intro h2
    set n := X.length with hn
    have hx : (0:ℚ) ≤ (n:ℚ) * (1 - r) :=
      mul_nonneg (Nat.cast_nonneg n) (by linarith)
    set F := ⌊(n:ℚ) * (1 - r)⌋ with hF
    have hF0 : 0 ≤ F := Int.floor_nonneg.mpr hx
    have hFn : F ≤ (n:ℤ) := by
      have : (n:ℚ) * (1 - r) ≤ (n:ℚ) :=
        mul_le_of_le_one_right (Nat.cast_nonneg n) (by linarith)
      calc F ≤ ⌊(n:ℚ)⌋ := Int.floor_le_floor this
        _ = (n:ℤ) := Int.floor_natCast n
    have hceil : (n:ℤ) - F = ⌈(n:ℚ) * r⌉ := by
      have : (n:ℚ) * (1 - r) = ((n:ℤ):ℚ) + (-((n:ℚ) * r)) := by
        push_cast
        ring
      rw [hF, this, Int.floor_int_add, Int.floor_neg]
      ring
    have hsp : splitPoint n r = min ((n:ℤ) - 1) (max 1 F) := by
      simp only [splitPoint, pyInt]
      rw [if_pos hx, ← hF]
      have hs1 : (if F ≤ 0 then (1:ℤ) else F) = max 1 F := by
        by_cases hF' : F ≤ 0
        · rw [if_pos hF', show F = 0 from le_antisymm hF' hF0]
          norm_num
        · rw [if_neg hF', max_eq_right (by omega)]
      rw [hs1]
      by_cases hge : max 1 F ≥ (n:ℤ)
      · rw [if_pos hge, min_eq_left (by omega)]
      · rw [if_neg hge, min_eq_right (by omega)]
    have hsp1 : 1 ≤ splitPoint n r := by
      rw [hsp]
      have h1 : (1:ℤ) ≤ (n:ℤ) - 1 := by
        have : (2:ℤ) ≤ (n:ℤ) := by exact_mod_cast h2
        omega
      exact le_min h1 (le_max_left 1 F)
    have hspn : splitPoint n r ≤ (n:ℤ) - 1 := by
      rw [hsp]
      exact min_le_left _ _
    set k := (splitPoint n r).toNat with hk
    have hkZ : (k:ℤ) = splitPoint n r :=
      Int.toNat_of_nonneg (by omega)
    have hkn : k ≤ n := by omega
    have hk1 : 1 ≤ k := by omega
    have hlen : ¬ X.length < 2 := by omega
    refine ⟨(perm.take k).map (fun i => X.getD i (fun _ => 0)),
        (perm.drop k).map (fun i => X.getD i (fun _ => 0)),
        (perm.take k).map (fun i => y.getD i 0),
        (perm.drop k).map (fun i => y.getD i 0), ?_, ?_, ?_, ?_, ?_⟩
    · exact train_test_split_ok X y r perm hlen
    · rw [List.length_map, List.length_drop, hperm]
      have hcast : ((n - k : ℕ) : ℤ) = (n:ℤ) - (k:ℤ) := by omega
      rw [hcast, hkZ, hsp, ← hceil]
      simp only [max_def, min_def]
      split_ifs <;> omega
    · rw [List.length_map, List.length_map, List.length_take,
        List.length_drop, hperm]
      omega
    · rw [List.length_map, List.length_take, hperm]
      omega
    · rw [List.length_map, List.length_drop, hperm]
      omega

/-- Witness for `C4_split_sizes` on three concrete samples with the
default test ratio. -/
theorem C4_split_sizes_witness :
    ([0, 1, 2] : List ℕ).length
        = ([cexRow 0, cexRow 1, cexRow 2] : List (Fin 6 → ℚ)).length
      ∧ (0:ℚ) ≤ 2/5 ∧ (2:ℚ)/5 ≤ 1
      ∧ ((([cexRow 0, cexRow 1, cexRow 2] : List (Fin 6 → ℚ)).length < 2 →
            train_test_split [cexRow 0, cexRow 1, cexRow 2] [0, 0, 0] (2/5)
                [0, 1, 2]
              = .error "Need at least 2 samples for train/test split")
          ∧ (2 ≤ ([cexRow 0, cexRow 1, cexRow 2] : List (Fin 6 → ℚ)).length →
              ∃ tr te ytr yte,
                train_test_split [cexRow 0, cexRow 1, cexRow 2] [0, 0, 0]
                    (2/5) [0, 1, 2] = .ok (tr, te, ytr, yte)
                  ∧ (te.length : ℤ)
                      = max 1 (min
                          ((([cexRow 0, cexRow 1, cexRow 2] :
                              List (Fin 6 → ℚ)).length : ℤ) - 1)
                          ⌈((([cexRow 0, cexRow 1, cexRow 2] :
                              List (Fin 6 → ℚ)).length : ℚ)) * (2/5)⌉)
                  ∧ tr.length + te.length
                      = ([cexRow 0, cexRow 1, cexRow 2] :
                          List (Fin 6 → ℚ)).length
                  ∧ 1 ≤ tr.length ∧ 1 ≤ te.length)) :=
  ⟨rfl, by norm_num, by norm_num,
    C4_split_sizes [cexRow 0, cexRow 1, cexRow 2] [0, 0, 0] (2/5) [0, 1, 2]
      rfl (by norm_num) (by norm_num)⟩

/-! ## Claim C6 -/

/-- The four thresholded classes partition the zipped label/prediction
pairs. -/
theorem countClass_partition (yt yp : List ℚ) :
    tpCount yt yp + tnCount yt yp + fpCount yt yp + fnCount yt yp
      = (yt.zip yp).length := by
  unfold tpCount tnCount fpCount fnCount countClass
  generalize yt.zip yp = l
  induction l with
  | nil => rfl
  | cons a t ih =>
    by_cases h1 : thresh a.1 <;> by_cases h2 : thresh a.2 <;>
      simp [List.filter_cons, h1, h2] at ih ⊢ <;> omega

/-- Claim C6: the evaluator reports a metric as `None` (undefined, never
zero) exactly when its denominator is zero — all three when `n = 0`,
precision exactly when `tp + fp = 0`, recall exactly when `tp + fn = 0`
— and otherwise computes `(tp+tn)/n`, `tp/(tp+fp)`, `tp/(tp+fn)` on the
classes obtained by thresholding both vectors at 0.5. -/
theorem C6_metrics_undefined (yt yp : List ℚ)
    (hlen : yt.length = yp.length) :
    (yt.length = 0 →
        compute_classification_metrics yt yp = (none, none, none))
      ∧ ((compute_classification_metrics yt yp).1 = none ↔ yt.length = 0)
      ∧ ((compute_classification_metrics yt yp).2.1 = none
          ↔ tpCount yt yp + fpCount yt yp = 0)
      ∧ ((compute_classification_metrics yt yp).2.2 = none
          ↔ tpCount yt yp + fnCount yt yp = 0)
      ∧ (tpCount yt yp + tnCount yt yp + fpCount yt yp + fnCount yt yp
          = yt.length)
      ∧ (yt.length ≠ 0 →
          (compute_classification_metrics yt yp).1
            = some (((tpCount yt yp : ℚ) + (tnCount yt yp : ℚ))
                / ((tpCount yt yp + tnCount yt yp + fpCount yt yp
                    + fnCount yt yp : ℕ) : ℚ)))
      ∧ (tpCount yt yp + fpCount yt yp ≠ 0 →
          (compute_classification_metrics yt yp).2.1
            = some ((tpCount yt yp : ℚ)
                / ((tpCount yt yp + fpCount yt yp : ℕ) : ℚ)))
      ∧ (tpCount yt yp + fnCount yt yp ≠ 0 →
          (compute_classification_metrics yt yp).2.2
            = some ((tpCount yt yp : ℚ)
                / ((tpCount yt yp + fnCount yt yp : ℕ) : ℚ))) := by
  have hpart : tpCount yt yp + tnCount yt yp + fpCount yt yp + fnCount yt yp
      = yt.length := by
    have h4 := countClass_partition yt yp
    rw [List.length_zip, ← hlen, min_self] at h4
    exact h4
  refine ⟨?_, ?_, ?_, ?_, hpart, ?_, ?_, ?_⟩
  · intro h0
    simp only [compute_classification_metrics]
    rw [if_pos (by omega : tpCount yt yp + tnCount yt yp + fpCount yt yp
          + fnCount yt yp = 0),
      if_pos (by omega : tpCount yt yp + fpCount yt yp = 0),
      if_pos (by omega : tpCount yt yp + fnCount yt yp = 0)]
  · simp only [compute_classification_metrics]
    by_cases h : tpCount yt yp + tnCount yt yp + fpCount yt yp
        + fnCount yt yp = 0
    · rw [if_pos h]
      constructor
      · intro _
        omega
      · intro _
        rfl
    · rw [if_neg h]
      constructor
      · intro hx
        exact absurd hx (Option.some_ne_none _)
      · intro hx
        exact absurd (hpart.trans hx) h
  · simp only [compute_classification_metrics]
    by_cases h : tpCount yt yp + fpCount yt yp = 0
    · rw [if_pos h]
      simp [h]
    · rw [if_neg h]
      simp [h]
  · simp only [compute_classification_metrics]
    by_cases h : tpCount yt yp + fnCount yt yp = 0
    · rw [if_pos h]
      simp [h]
    · rw [if_neg h]
      simp [h]
  · intro h0
    simp only [compute_classification_metrics]
    rw [if_neg (by omega : ¬ (tpCount yt yp + tnCount yt yp + fpCount yt yp
          + fnCount yt yp = 0))]
  · intro h
    simp only [compute_classification_metrics]
    rw [if_neg h]
  · intro h
    simp only [compute_classification_metrics]
    rw [if_neg h]

/-- Witness for `C6_metrics_undefined` on a concrete pair of score
vectors of equal length. -/
theorem C6_metrics_undefined_witness :
    ([(1:ℚ), 0] : List ℚ).length = ([(1:ℚ), 1] : List ℚ).length
      ∧ ((([(1:ℚ), 0] : List ℚ).length = 0 →
            compute_classification_metrics [(1:ℚ), 0] [(1:ℚ), 1]
              = (none, none, none))
          ∧ ((compute_classification_metrics [(1:ℚ), 0] [(1:ℚ), 1]).1 = none
              ↔ ([(1:ℚ), 0] : List ℚ).length = 0)
          ∧ ((compute_classification_metrics [(1:ℚ), 0] [(1:ℚ), 1]).2.1 = none
              ↔ tpCount [(1:ℚ), 0] [(1:ℚ), 1]
                  + fpCount [(1:ℚ), 0] [(1:ℚ), 1] = 0)
          ∧ ((compute_classification_metrics [(1:ℚ), 0] [(1:ℚ), 1]).2.2 = none
              ↔ tpCount [(1:ℚ), 0] [(1:ℚ), 1]
                  + fnCount [(1:ℚ), 0] [(1:ℚ), 1] = 0)
          ∧ (tpCount [(1:ℚ), 0] [(1:ℚ), 1] + tnCount [(1:ℚ), 0] [(1:ℚ), 1]
              + fpCount [(1:ℚ), 0] [(1:ℚ), 1] + fnCount [(1:ℚ), 0] [(1:ℚ), 1]
              = ([(1:ℚ), 0] : List ℚ).length)
          ∧ (([(1:ℚ), 0] : List ℚ).length ≠ 0 →
              (compute_classification_metrics [(1:ℚ), 0] [(1:ℚ), 1]).1
                = some (((tpCount [(1:ℚ), 0] [(1:ℚ), 1] : ℚ)
                    + (tnCount [(1:ℚ), 0] [(1:ℚ), 1] : ℚ))
                    / ((tpCount [(1:ℚ), 0] [(1:ℚ), 1]
                        + tnCount [(1:ℚ), 0] [(1:ℚ), 1]
                        + fpCount [(1:ℚ), 0] [(1:ℚ), 1]
                        + fnCount [(1:ℚ), 0] [(1:ℚ), 1] : ℕ) : ℚ)))
          ∧ (tpCount [(1:ℚ), 0] [(1:ℚ), 1] + fpCount [(1:ℚ), 0] [(1:ℚ), 1] ≠ 0 →
              (compute_classification_metrics [(1:ℚ), 0] [(1:ℚ), 1]).2.1
                = some ((tpCount [(1:ℚ), 0] [(1:ℚ), 1] : ℚ)
                    / ((tpCount [(1:ℚ), 0] [(1:ℚ), 1]
                        + fpCount [(1:ℚ), 0] [(1:ℚ), 1] : ℕ) : ℚ)))
          ∧ (tpCount [(1:ℚ), 0] [(1:ℚ), 1] + fnCount [(1:ℚ), 0] [(1:ℚ), 1] ≠ 0 →
              (compute_classification_metrics [(1:ℚ), 0] [(1:ℚ), 1]).2.2
                = some ((tpCount [(1:ℚ), 0] [(1:ℚ), 1] : ℚ)
                    / ((tpCount [(1:ℚ), 0] [(1:ℚ), 1]
                        + fnCount [(1:ℚ), 0] [(1:ℚ), 1] : ℕ) : ℚ)))) :=
  ⟨rfl, C6_metrics_undefined [(1:ℚ), 0] [(1:ℚ), 1] rfl⟩

/-! ## Claim C7 -/

/-- Claim C7: `fit_linear_model` augments the feature matrix with a
constant column, adds the fixed penalty `lam = 1/1000` to every diagonal
entry of the Gram matrix — the bias column's coefficient included — and
the returned `theta` (weights followed by bias) solves the regularised
normal equations `(XᵗX + λI) θ = Xᵗ y` exactly; in exact arithmetic this
is the unique vector a linear-system solve returns. -/
theorem C7_ridge_normal_equations {m k : ℕ} (X : Matrix (Fin m) (Fin k) ℚ)
    (y : Fin m → ℚ) (hdet : (gram X).det ≠ 0) :
    (gram X).mulVec (fitTheta X y) = gramRhs X y
      ∧ (∀ j, gram X j j = ((augment X).transpose * augment X) j j + lam)
      ∧ (∀ i j, i ≠ j →
          gram X i j = ((augment X).transpose * augment X) i j)
      ∧ (∀ i j, augment X i (Fin.castSucc j) = X i j)
      ∧ (∀ i, augment X i (Fin.last k) = 1)
      ∧ fit_linear_model X y
          = (fun i => fitTheta X y (Fin.castSucc i),
             fitTheta X y (Fin.last k)) := by
  refine ⟨?_, ?_, ?_, ?_, ?_, rfl⟩
  · unfold fitTheta
    rw [Matrix.mulVec_smul, Matrix.mulVec_mulVec, Matrix.mul_adjugate,
      Matrix.smul_mulVec_assoc, Matrix.one_mulVec, smul_smul,
      one_div_mul_cancel hdet, one_smul]
  · intro j
    simp [gram, Matrix.add_apply, Matrix.smul_apply, Matrix.one_apply_eq,
      smul_eq_mul]
  · intro i j hij
    simp [gram, Matrix.add_apply, Matrix.smul_apply,
      Matrix.one_apply_ne hij, smul_eq_mul]
  · intro i j
    simp [augment, j.isLt]
  · intro i
    simp [augment]

/-- The regularised Gram matrix of the concrete 1×1 design matrix is
invertible. -/
theorem gram_cexMat1_det_ne_zero : (gram cexMat1).det ≠ 0 := by
  have haug : ∀ (l : Fin 1) (i : Fin 2), augment cexMat1 l i = 1 := by
    intro l i
    unfold augment cexMat1
    simp only [Matrix.of_apply]
    split <;> rfl
  have hA : ∀ i j : Fin 2,
      ((augment cexMat1).transpose * augment cexMat1) i j = 1 := by
    intro i j
    rw [Matrix.mul_apply]
    simp [Matrix.transpose_apply, haug]
  have hg : ∀ i j : Fin 2,
      gram cexMat1 i j = if i = j then 1 + lam else 1 := by
    intro i j
    show ((augment cexMat1).transpose * augment cexMat1
        + lam • (1 : Matrix (Fin 2) (Fin 2) ℚ)) i j = _
    rw [Matrix.add_apply, hA i j, Matrix.smul_apply]
    by_cases h : i = j
    · rw [if_pos h, h, Matrix.one_apply_eq, smul_eq_mul, mul_one]
    · rw [if_neg h, Matrix.one_apply_ne h, smul_eq_mul, mul_zero, add_zero]
  rw [Matrix.det_fin_two, hg 0 0, hg 1 1, hg 0 1, hg 1 0]
  norm_num [lam]

/-- Witness for `C7_ridge_normal_equations` at the concrete 1×1 design
matrix and target vector `![1]`. -/
theorem C7_ridge_normal_equations_witness :
    (gram cexMat1).det ≠ 0
      ∧ ((gram cexMat1).mulVec (fitTheta cexMat1 ![1])
            = gramRhs cexMat1 ![1]
          ∧ (∀ j, gram cexMat1 j j
              = ((augment cexMat1).transpose * augment cexMat1) j j + lam)
          ∧ (∀ i j, i ≠ j →
              gram cexMat1 i j
                = ((augment cexMat1).transpose * augment cexMat1) i j)
          ∧ (∀ i j, augment cexMat1 i (Fin.castSucc j) = cexMat1 i j)
          ∧ (∀ i, augment cexMat1 i (Fin.last 1) = 1)
          ∧ fit_linear_model cexMat1 ![1]
              = (fun i => fitTheta cexMat1 ![1] (Fin.castSucc i),
                 fitTheta cexMat1 ![1] (Fin.last 1))) :=
  ⟨gram_cexMat1_det_ne_zero,
    C7_ridge_normal_equations cexMat1 ![1] gram_cexMat1_det_ne_zero⟩

/-! ## Claims C8 and C10 -/

theorem getNum_eq_none_iff (c : Option (Option ℚ)) :
    getNum c = none ↔ c = none ∨ c = some none := by
  rcases c with _ | v
  · simp [getNum]
  · rcases v with _ | q <;> simp [getNum]

theorem getUsage_eq_none_iff (c : Option (Option ℚ)) :
    getUsage c = none ↔ c = some none := by
  rcases c with _ | v
  · simp [getUsage]
  · rcases v with _ | q <;> simp [getUsage]

/-- A row is skipped exactly when one of its reads raises. -/
theorem parseRow_eq_none_iff (r : RawRow) :
    parseRow r = none ↔
      (getNum r.power_kw = none ∨ getNum r.n_connectors = none
        ∨ getNum r.has_fast_dc = none ∨ getNum r.rating = none
        ∨ getNum r.has_geo = none ∨ getUsage r.usage_score = none
        ∨ getNum r.label = none) := by
  unfold parseRow
  rcases hp : getNum r.power_kw with _ | p
  · simp [hp]
  rcases hc : getNum r.n_connectors with _ | c
  · simp [hp, hc]
  rcases hf : getNum r.has_fast_dc with _ | f
  · simp [hp, hc, hf]
  rcases hr : getNum r.rating with _ | rat
  · simp [hp, hc, hf, hr]
  rcases hg : getNum r.has_geo with _ | g
  · simp [hp, hc, hf, hr, hg]
  rcases hu : getUsage r.usage_score with _ | u
  · simp [hp, hc, hf, hr, hg, hu]
  rcases hl : getNum r.label with _ | l
  · simp [hp, hc, hf, hr, hg, hu, hl]
  simp [hp, hc, hf, hr, hg, hu, hl]

/-- A row is skipped exactly when a required column is missing or any
present column is non-numeric. -/
theorem parseRow_none_iff_specBadRow (r : RawRow) :
    parseRow r = none ↔ specBadRow r := by
  rw [parseRow_eq_none_iff]
  simp only [getNum_eq_none_iff, getUsage_eq_none_iff, specBadRow]
  tauto

/-- Claim C8 amended: rows whose required columns are missing or whose
present columns are non-numeric are skipped (silently — the count
`main` reports is the number of *loaded* rows, not of skipped rows),
loading succeeds whenever at least one usable row remains, and fails
only when none does. -/
theorem C8_load_skips (rows : List RawRow) :
    (rows.filterMap parseRow = [] →
        load_training_data rows
          = .error "No valid rows in training_data.csv")
      ∧ (rows.filterMap parseRow ≠ [] →
          load_training_data rows
            = .ok ((rows.filterMap parseRow).map Prod.fst,
                   (rows.filterMap parseRow).map Prod.snd))
      ∧ (∀ r, parseRow r = none ↔ specBadRow r)
      ∧ samplesLoadedCount rows + skippedRowCount rows = rows.length := by
  refine ⟨?_, ?_, parseRow_none_iff_specBadRow, ?_⟩
  · intro h
    simp [load_training_data, h]
  · intro h
    simp [load_training_data, h]
  · have hle : (rows.filterMap parseRow).length ≤ rows.length :=
      List.length_filterMap_le parseRow rows
    unfold samplesLoadedCount skippedRowCount samplesLoadedCount
    omega

/-- Claim C8, as stated, is false in its reporting clause: on a data set
with two good rows and one bad row, the loader skips 1 row but the only
count the pipeline reports is the number of loaded rows, 2. -/
theorem C8_counterexample :
    samplesLoadedCount [goodRaw 0, goodRaw 100, badRaw] = 2
      ∧ skippedRowCount [goodRaw 0, goodRaw 100, badRaw] = 1
      ∧ samplesLoadedCount [goodRaw 0, goodRaw 100, badRaw]
          ≠ skippedRowCount [goodRaw 0, goodRaw 100, badRaw] := by
  have h1 : samplesLoadedCount [goodRaw 0, goodRaw 100, badRaw] = 2 := rfl
  have h2 : skippedRowCount [goodRaw 0, goodRaw 100, badRaw] = 1 := rfl
  refine ⟨h1, h2, ?_⟩
  rw [h1, h2]
  norm_num

/-- Witness for `C8_load_skips` on a concrete row list with one bad
row. -/
theorem C8_load_skips_witness :
    (([goodRaw 0, goodRaw 100, badRaw] : List RawRow).filterMap parseRow = [] →
        load_training_data [goodRaw 0, goodRaw 100, badRaw]
          = .error "No valid rows in training_data.csv")
      ∧ (([goodRaw 0, goodRaw 100, badRaw] : List RawRow).filterMap parseRow
            ≠ [] →
          load_training_data [goodRaw 0, goodRaw 100, badRaw]
            = .ok ((([goodRaw 0, goodRaw 100, badRaw] : List RawRow).filterMap
                      parseRow).map Prod.fst,
                   (([goodRaw 0, goodRaw 100, badRaw] : List RawRow).filterMap
                      parseRow).map Prod.snd))
      ∧ (∀ r, parseRow r = none ↔ specBadRow r)
      ∧ samplesLoadedCount [goodRaw 0, goodRaw 100, badRaw]
          + skippedRowCount [goodRaw 0, goodRaw 100, badRaw]
          = ([goodRaw 0, goodRaw 100, badRaw] : List RawRow).length :=
  C8_load_skips [goodRaw 0, goodRaw 100, badRaw]

/-- Claim C10: a row whose `usage_score` column is absent is loaded with
`usage_score` defaulted to 0, while a row missing any other required
column (`power_kw`, `n_connectors`, `has_fast_dc`, `rating`, `has_geo`,
`label`) is skipped. -/
theorem C10_usage_default (r : RawRow) (p c f rat g l : ℚ)
    (hp : r.power_kw = some (some p)) (hc : r.n_connectors = some (some c))
    (hf : r.has_fast_dc = some (some f)) (hr : r.rating = some (some rat))
    (hg : r.has_geo = some (some g)) (hu : r.usage_score = none)
    (hl : r.label = some (some l)) :
    parseRow r = some (![p, c, f, rat, g, 0], l)
      ∧ (∀ s : RawRow, s.power_kw = none → parseRow s = none)
      ∧ (∀ s : RawRow, s.n_connectors = none → parseRow s = none)
      ∧ (∀ s : RawRow, s.has_fast_dc = none → parseRow s = none)
      ∧ (∀ s : RawRow, s.rating = none → parseRow s = none)
      ∧ (∀ s : RawRow, s.has_geo = none → parseRow s = none)
      ∧ (∀ s : RawRow, s.label = none → parseRow s = none) := by
  refine ⟨?_, ?_, ?_, ?_, ?_, ?_, ?_⟩
  · simp [parseRow, hp, hc, hf, hr, hg, hu, hl, getNum, getUsage]
  all_goals
    intro s hs
    rw [parseRow_eq_none_iff]
    simp [getNum, getUsage, hs]

/-- Witness for `C10_usage_default` on a concrete row lacking only
`usage_score`. -/
theorem C10_usage_default_witness :
    usageMissingRaw.power_kw = some (some 1)
      ∧ usageMissingRaw.usage_score = none
      ∧ (parseRow usageMissingRaw = some (![1, 2, 1, 4, 1, 0], 1)
          ∧ (∀ s : RawRow, s.power_kw = none → parseRow s = none)
          ∧ (∀ s : RawRow, s.n_connectors = none → parseRow s = none)
          ∧ (∀ s : RawRow, s.has_fast_dc = none → parseRow s = none)
          ∧ (∀ s : RawRow, s.rating = none → parseRow s = none)
          ∧ (∀ s : RawRow, s.has_geo = none → parseRow s = none)
          ∧ (∀ s : RawRow, s.label = none → parseRow s = none)) :=
  ⟨rfl, rfl,
    C10_usage_default usageMissingRaw 1 2 1 4 1 1
      rfl rfl rfl rfl rfl rfl rfl⟩

end Autodun
